import Mathlib

/-!
Shallow embedding of the youtubeTranscripts core: the transcript resolver
with its shared failure counter (src/unnamed/part_000), the smart rate
limiter (same file), and the format renderer
(src/src/lib/transcript-formatter.ts).  JavaScript numbers are modelled as
exact rationals, strings as Lean strings, and the external network calls of
the resolver as an environment record holding the outcome each upstream
client would return.
-/

set_option maxRecDepth 4000

namespace YT

/-- Model of the JavaScript whitespace test used by String.prototype.trim. -/
def isWs (c : Char) : Bool := c.isWhitespace

/-- Model of JavaScript String.prototype.trim: drop leading and trailing
whitespace characters. -/
def jsTrim (s : String) : String :=
  String.mk ((((s.data.dropWhile isWs).reverse).dropWhile isWs).reverse)

/-- Is pat a prefix of l, on character lists. -/
def prefOf : List Char → List Char → Bool
  | [], _ => true
  | _ :: _, [] => false
  | a :: as, b :: bs => a == b && prefOf as bs

/-- Does s contain pat as a contiguous substring, on character lists. -/
def subAux (pat : List Char) : List Char → Bool
  | [] => pat.isEmpty
  | c :: t => prefOf pat (c :: t) || subAux pat t

/-- Model of JavaScript String.prototype.includes. -/
def strContains (s pat : String) : Bool := subAux pat.data s.data

/-- Model of JavaScript Array.prototype.join. -/
def jsJoin (sep : String) : List String → String
  | [] => ""
  | [x] => x
  | x :: y :: xs => x ++ sep ++ jsJoin sep (y :: xs)

/-- Model of JavaScript String.prototype.padStart with a one-character pad. -/
def padStart (s : String) (n : Nat) (c : Char) : String :=
  String.mk (List.replicate (n - s.length) c) ++ s

/-- Model of JavaScript String.prototype.toLowerCase on ASCII format names. -/
def jsToLower (s : String) : String := String.mk (s.data.map Char.toLower)

/-- Truncation toward zero, as used by the JavaScript remainder operator. -/
def jsTrunc (q : ℚ) : Int := if q < 0 then Rat.ceil q else Rat.floor q

/-- Model of the JavaScript remainder operator on numbers (fmod). -/
def jsFmod (a b : ℚ) : ℚ := a - b * (jsTrunc (a / b) : ℚ)

/-- One normalized caption segment (interface TranscriptSegment,
src/unnamed/part_000 lines 4-8). -/
structure TranscriptSegment where
  text : String
  offset : ℚ
  duration : ℚ
deriving DecidableEq, Repr

/-! ## Rate limiter (src/unnamed/part_000 lines 17-40) -/

/-- RATE_LIMIT_CONFIG.baseDelay. -/
def baseDelay : ℚ := 500

/-- RATE_LIMIT_CONFIG.maxDelay. -/
def maxDelay : ℚ := 5000

/-- RATE_LIMIT_CONFIG.backoffMultiplier (1.5). -/
def backoffMultiplier : ℚ := 3 / 2

/-- The two module-level mutable cells read by the limiter: lastRequestTime
and consecutiveFailures. -/
structure RLState where
  lastRequestTime : ℚ
  consecutiveFailures : Nat
deriving DecidableEq, Repr

/-- The delay demanded by the current failure count (lines 29-33). -/
def dynamicDelay (consecutiveFailures : Nat) : ℚ :=
  min (baseDelay * backoffMultiplier ^ consecutiveFailures) maxDelay

/-- Model of smartRateLimit (lines 27-40): given the current clock value and
the shared state, return the time spent waiting and the updated state; the
timestamp written at line 39 is the clock value after the wait. -/
def smartRateLimit (now : ℚ) (st : RLState) : ℚ × RLState :=
  let d := dynamicDelay st.consecutiveFailures
  let timeSinceLastRequest := now - st.lastRequestTime
  let waitTime := if timeSinceLastRequest < d then d - timeSinceLastRequest else 0
  (waitTime, { st with lastRequestTime := now + waitTime })

/-! ## Transcript resolver (src/unnamed/part_000 lines 42-174) -/

/-- One raw segment as returned by the strategy A client (the
youtube-transcript package): each field may be absent, which the resolver
guards with optional chaining and logical-or defaults. -/
structure RawSegmentA where
  text : Option String
  offset : Option ℚ
  duration : Option ℚ
deriving DecidableEq, Repr

/-- Outcome of one call to the strategy A client: a segment array, or a
thrown error carrying a message. -/
inductive FetchOutcome where
  | ok (segs : List RawSegmentA)
  | err (msg : String)
deriving DecidableEq, Repr

/-- Normalization applied to each strategy A segment (lines 117-123 and
153-159): trim the text with empty default, clamp offset and duration at 0
with 0 default. -/
def normalizeA (segment : RawSegmentA) : TranscriptSegment :=
  { text := jsTrim (segment.text.getD "")
    offset := max 0 (segment.offset.getD 0)
    duration := max 0 (segment.duration.getD 0) }

/-- One entry of the transcript content array handed to the strategy B
parsing loop (lines 75-98): whether its type tag is TranscriptSegment, the
optional snippet text, the optional snippet runs (each run with an optional
text), and the parseInt results of start_ms and end_ms (none when the field
is absent, in which case parseInt receives the default string 0). -/
structure BItem where
  isSegment : Bool
  snippet_text : Option String
  snippet_runs : Option (List (Option String))
  start_ms : Option Int
  end_ms : Option Int
deriving DecidableEq, Repr

/-- Text drawn from the snippet runs (line 85): concatenate the texts of the
runs, with empty default per run. -/
def runsText (item : BItem) : String :=
  match item.snippet_runs with
  | some runs => jsJoin "" (runs.map (fun run => run.getD ""))
  | none => ""

/-- Text extraction of lines 81-86: the snippet text when truthy, else the
concatenated runs when present, else empty. -/
def extractBText (item : BItem) : String :=
  match item.snippet_text with
  | some t => if t != "" then t else runsText item
  | none => runsText item

/-- The body of the strategy B loop (lines 75-98) for one item: skip items
not tagged TranscriptSegment, extract the text, parse start_ms and end_ms
with default 0, and keep the item only when its text is nonempty after
trimming, with offset and duration floor-divided from milliseconds to whole
seconds.  No clamping is applied on this path. -/
def segOfBItem (item : BItem) : Option TranscriptSegment :=
  if item.isSegment then
    let text := extractBText item
    let startMs := item.start_ms.getD 0
    let endMs := item.end_ms.getD 0
    let durationMs := endMs - startMs
    if text != "" && jsTrim text != "" then
      some { text := jsTrim text
             offset := (Int.fdiv startMs 1000 : ℤ)
             duration := (Int.fdiv durationMs 1000 : ℤ) }
    else none
  else none

/-- The full strategy B loop over the extracted content array. -/
def youtubeISegments (content : List BItem) : List TranscriptSegment :=
  content.filterMap segOfBItem

/-- Environment of one resolution call: the outcome each upstream call would
have.  fetchA_id is the strategy A call on the bare id, fetchB is the
strategy B content array (none when any step of the youtubei.js call chain
throws or returns no transcript), fetchA_url1 and fetchA_url2 are the
strategy A calls on the watch URL and the short URL. -/
structure ResolverEnv where
  fetchA_id : FetchOutcome
  fetchB : Option (List BItem)
  fetchA_url1 : FetchOutcome
  fetchA_url2 : FetchOutcome
deriving DecidableEq, Repr

/-- Model of fetchTranscriptWithYoutubeI (lines 42-103): none when the call
chain throws, when no transcript is returned, or when the content array is
empty (lines 71-73 throw in that case); otherwise the parsed segments. -/
def fetchTranscriptWithYoutubeI (env : ResolverEnv) : Option (List TranscriptSegment) :=
  match env.fetchB with
  | none => none
  | some content => if content.isEmpty then none else some (youtubeISegments content)

/-- Result of a resolution: the returned segment list or the thrown error
message. -/
inductive ResolveResult where
  | ok (segs : List TranscriptSegment)
  | err (msg : String)
deriving DecidableEq, Repr

/-- Observable outcome of getYouTubeTranscript: result, final value of the
shared consecutive-failure counter, and which fallback attempts were made. -/
structure ResolveOut where
  result : ResolveResult
  counter : Int
  triedB : Bool
  triedUrl1 : Bool
  triedUrl2 : Bool
deriving DecidableEq, Repr

/-- The fixed diagnostic message of lines 166-172, naming the video id. -/
def diagMsg (videoId : String) : String :=
  "No transcript available for video " ++ videoId ++ ". This could be because:\n- The video doesn\x27t have captions enabled\n- The video is private, restricted, or unavailable  \n- Transcripts are disabled by the video owner\n- There\x27s a temporary issue with YouTube\x27s caption service\n\nPlease try a different video or check if the video has captions available on YouTube directly."

/-- The second URL-form retry of strategy A (loop of lines 147-163, second
iteration), followed by the terminal failure of lines 164-173. -/
def tryUrl2 (videoId : String) (env : ResolverEnv) (c : Int) : ResolveOut :=
  match env.fetchA_url2 with
  | .ok segs =>
    if segs.length > 0 then ⟨.ok (segs.map normalizeA), max 0 (c - 1), true, true, true⟩
    else ⟨.err (diagMsg videoId), c + 1, true, true, true⟩
  | .err _ => ⟨.err (diagMsg videoId), c + 1, true, true, true⟩

/-- The first URL-form retry of strategy A (loop of lines 147-163, first
iteration); every error is swallowed. -/
def tryUrl1 (videoId : String) (env : ResolverEnv) (c : Int) : ResolveOut :=
  match env.fetchA_url1 with
  | .ok segs =>
    if segs.length > 0 then ⟨.ok (segs.map normalizeA), max 0 (c - 1), true, true, false⟩
    else tryUrl2 videoId env c
  | .err _ => tryUrl2 videoId env c

/-- The strategy B attempt (lines 135-142); every error is swallowed and an
empty result falls through to the URL retries. -/
def afterA (videoId : String) (env : ResolverEnv) (c : Int) : ResolveOut :=
  match fetchTranscriptWithYoutubeI env with
  | some segs =>
    if segs.length > 0 then ⟨.ok segs, max 0 (c - 1), true, false, false⟩
    else tryUrl1 videoId env c
  | none => tryUrl1 videoId env c

/-- Model of getYouTubeTranscript (lines 105-174).  The smartRateLimit calls
interleaved with the attempts only read the counter and write the shared
timestamp (modelled separately by smartRateLimit above); they do not affect
the result, the counter, or which attempts run, so they are not threaded
here. -/
def getYouTubeTranscript (videoId : String) (env : ResolverEnv) (c : Int) : ResolveOut :=
  if videoId = "" then ⟨.err "Invalid video ID provided", c, false, false, false⟩
  else
    match env.fetchA_id with
    | .ok segs =>
      if segs.length > 0 then ⟨.ok (segs.map normalizeA), max 0 (c - 1), false, false, false⟩
      else afterA videoId env c
    | .err msg =>
      if strContains msg "Transcript is disabled" then
        ⟨.err "Transcripts are disabled for this video", c, false, false, false⟩
      else if strContains msg "Video unavailable" then
        ⟨.err "Video is unavailable or has been removed", c, false, false, false⟩
      else if strContains msg "private" then
        ⟨.err "Video is private or restricted", c, false, false, false⟩
      else afterA videoId env c

/-- Final counter value after a sequence of resolution calls, each seeing
the counter the previous call left behind. -/
def runSeq (videoId : String) : List ResolverEnv → Int → Int
  | [], c => c
  | env :: rest, c => runSeq videoId rest ((getYouTubeTranscript videoId env c).counter)

/-! ## Time formatter (transcript-formatter.ts lines 80-90) -/

/-- Model of formatTime: seconds (possibly fractional) to a zero-padded
HH:MM:SS plus 3-digit milliseconds, with a comma separator in the SRT/CSV
style and a dot in the VTT style. -/
def formatTime (seconds : ℚ) (vtt : Bool) : String :=
  let hours := Rat.floor (seconds / 3600)
  let minutes := Rat.floor (jsFmod seconds 3600 / 60)
  let secs := Rat.floor (jsFmod seconds 60)
  let ms := Rat.floor (jsFmod seconds 1 * 1000)
  let sep := if vtt then "." else ","
  padStart (toString hours) 2 '0' ++ ":" ++ padStart (toString minutes) 2 '0'
    ++ ":" ++ padStart (toString secs) 2 '0' ++ sep ++ padStart (toString ms) 3 '0'

/-! ## Format renderer (transcript-formatter.ts lines 3-78) -/

/-- A JavaScript value as seen by the runtime validation of
formatTranscript: a string, a number, or anything else (undefined, null,
objects and booleans all fail both the typeof string and the typeof number
tests, and are falsy or irrelevant to the checks performed, so one
constructor covers them). -/
inductive JsVal where
  | str (s : String)
  | num (q : ℚ)
  | undef
deriving DecidableEq, Repr

/-- A segment as handed to formatTranscript before validation: each field
may hold a value of the wrong runtime type. -/
structure DynSegment where
  text : JsVal
  offset : JsVal
  duration : JsVal
deriving DecidableEq, Repr

/-- Passes the text check of lines 12-14: a string that is truthy, that is,
nonempty. -/
def textOk : JsVal → Bool
  | .str s => s != ""
  | _ => false

/-- Passes the numeric checks of lines 15-20: a number that is not
negative. -/
def numOk : JsVal → Bool
  | .num q => decide (0 ≤ q)
  | _ => false

/-- All three validation checks for one segment. -/
def segValid (s : DynSegment) : Bool :=
  textOk s.text && numOk s.duration && numOk s.offset

/-- The forEach validation loop of lines 11-21: the first failing check
throws, with the index of the offending segment in the message; text is
checked before duration, duration before offset. -/
def validateFrom : Nat → List DynSegment → Except String Unit
  | _, [] => .ok ()
  | i, s :: rest =>
    if !textOk s.text then .error ("Invalid text in segment " ++ toString i)
    else if !numOk s.duration then .error ("Invalid duration in segment " ++ toString i)
    else if !numOk s.offset then .error ("Invalid offset in segment " ++ toString i)
    else validateFrom (i + 1) rest

/-- The string a validated text field holds. -/
def strOf : JsVal → String
  | .str s => s
  | _ => ""

/-- The number a validated numeric field holds. -/
def numOf : JsVal → ℚ
  | .num q => q
  | _ => 0

/-- View of a validated dynamic segment as a TranscriptSegment. -/
def toSegment (s : DynSegment) : TranscriptSegment :=
  { text := strOf s.text, offset := numOf s.offset, duration := numOf s.duration }

/-- Model of formatAsTxt (lines 39-41). -/
def formatAsTxt (transcript : List TranscriptSegment) : String :=
  jsJoin "\n\n" (transcript.map (fun segment => jsTrim segment.text))

/-- Character escaping inside a JSON string literal. -/
def jsonEscapeChar (c : Char) : List Char :=
  if c = '\x22' then ['\\', '\x22']
  else if c = '\\' then ['\\', '\\']
  else if c = '\n' then ['\\', 'n']
  else [c]

/-- A JSON string literal. -/
def jsonStr (s : String) : String :=
  "\x22" ++ String.mk ((s.data.map jsonEscapeChar).flatten) ++ "\x22"

/-- Rendering of a number inside the JSON dump.  JSON.stringify prints the
shortest decimal form of the underlying double; integral values print as
plain integers, which is the only case the surrounding application
produces.  Non-integral rationals are rendered as a fraction here; no claim
depends on this case. -/
def jsonNum (q : ℚ) : String :=
  if q.den = 1 then toString q.num else toString q.num ++ "/" ++ toString q.den

/-- Model of formatAsJson (lines 43-45): JSON.stringify of the segment
array with 2-space indentation. -/
def formatAsJson (transcript : List TranscriptSegment) : String :=
  if transcript.isEmpty then "[]"
  else
    "[\n" ++ jsJoin ",\n" (transcript.map (fun s =>
      "  \x7b\n    \x22text\x22: " ++ jsonStr s.text ++ ",\n    \x22offset\x22: "
        ++ jsonNum s.offset ++ ",\n    \x22duration\x22: " ++ jsonNum s.duration
        ++ "\n  \x7d")) ++ "\n]"

/-- The per-row text treatment of formatAsCsv line 52: double each quote,
collapse each newline to a space, then trim. -/
def csvEscape (t : String) : String :=
  jsTrim (String.mk ((t.data.map (fun c =>
    if c = '\x22' then ['\x22', '\x22']
    else if c = '\n' then [' ']
    else [c])).flatten))

/-- Model of formatAsCsv (lines 47-56). -/
def formatAsCsv (transcript : List TranscriptSegment) : String :=
  "Start Time,Duration,Text\n" ++ jsJoin "\n" (transcript.map (fun segment =>
    formatTime segment.offset false ++ "," ++ formatTime segment.duration false
      ++ ",\x22" ++ csvEscape segment.text ++ "\x22"))

/-- Model of Array.prototype.map when the callback also receives the element
index, with an explicit starting index. -/
def mapWithIdx (f : Nat → TranscriptSegment → String) : Nat → List TranscriptSegment → List String
  | _, [] => []
  | i, s :: rest => f i s :: mapWithIdx f (i + 1) rest

/-- Model of formatAsSrt (lines 58-67): each block is the 1-based sequence
number, the time range with a trailing newline after the text, joined with
single newlines. -/
def formatAsSrt (transcript : List TranscriptSegment) : String :=
  jsJoin "\n" (mapWithIdx (fun index segment =>
    toString (index + 1) ++ "\n" ++ formatTime segment.offset false ++ " --> "
      ++ formatTime (segment.offset + segment.duration) false ++ "\n"
      ++ jsTrim segment.text ++ "\n") 0 transcript)

/-- Model of formatAsVtt (lines 69-78). -/
def formatAsVtt (transcript : List TranscriptSegment) : String :=
  "WEBVTT\n\n" ++ jsJoin "\n\n" (transcript.map (fun segment =>
    formatTime segment.offset true ++ " --> "
      ++ formatTime (segment.offset + segment.duration) true ++ "\n"
      ++ jsTrim segment.text))

/-- Model of formatTranscript (lines 3-37): reject an empty list, run the
validation loop, then dispatch on the lowercased format with plain text as
the default for unrecognized formats. -/
def formatTranscript (transcript : List DynSegment) (format : String) : Except String String :=
  if transcript.isEmpty then .error "Empty transcript provided"
  else
    match validateFrom 0 transcript with
    | .error e => .error e
    | .ok _ =>
      let segs := transcript.map toSegment
      let fmt := jsToLower format
      if fmt = "txt" then .ok (formatAsTxt segs)
      else if fmt = "json" then .ok (formatAsJson segs)
      else if fmt = "csv" then .ok (formatAsCsv segs)
      else if fmt = "srt" then .ok (formatAsSrt segs)
      else if fmt = "vtt" then .ok (formatAsVtt segs)
      else .ok (formatAsTxt segs)


/-- Stated from the spec wording for one SRT block: 1-based sequence number,
then start --> end in non-VTT time format with end = offset + duration, then
the trimmed text, with no separator of its own. -/
def srtBlockSpec (index : Nat) (segment : TranscriptSegment) : String :=
  toString (index + 1) ++ "\n" ++ formatTime segment.offset false ++ " --> "
    ++ formatTime (segment.offset + segment.duration) false ++ "\n"
    ++ jsTrim segment.text

/-- An environment in which strategy A fails with an unrecognized message and
strategy B returns one well-formed item whose end_ms is smaller than its
start_ms. -/
def strategyBCexEnv : ResolverEnv :=
  { fetchA_id := .err "network glitch"
    fetchB := some [{ isSegment := true, snippet_text := some "hi", snippet_runs := none,
                      start_ms := some 1000, end_ms := some 0 }]
    fetchA_url1 := .ok []
    fetchA_url2 := .ok [] }

/-- An environment in which the first strategy A attempt succeeds with one
raw segment carrying padded text. -/
def witAEnv : ResolverEnv :=
  { fetchA_id := .ok [{ text := some " hi ", offset := some 1, duration := some 2 }]
    fetchB := none
    fetchA_url1 := .ok []
    fetchA_url2 := .ok [] }

/-- An environment in which the first strategy A attempt throws an error whose
message contains the phrase Video unavailable. -/
def witUnavailEnv : ResolverEnv :=
  { fetchA_id := .err "Video unavailable"
    fetchB := none
    fetchA_url1 := .ok []
    fetchA_url2 := .ok [] }

/-- An environment in which every attempt fails or returns an empty list. -/
def witFailEnv : ResolverEnv :=
  { fetchA_id := .err "request timed out"
    fetchB := none
    fetchA_url1 := .err "request timed out"
    fetchA_url2 := .ok [] }

end YT
open YT

lemma dropWhile_head_not (p : Char → Bool) :
    ∀ (l : List Char) (c : Char), (l.dropWhile p).head? = some c → p c = false := by
  intro l
  induction l with
  | nil => intro c h; simp [List.dropWhile] at h
  | cons a t ih =>
    intro c h
    by_cases hp : p a
    · rw [List.dropWhile_cons_of_pos hp] at h
      exact ih c h
    · rw [List.dropWhile_cons_of_neg hp] at h
      simp at h
      subst h
      exact Bool.eq_false_iff.mpr hp

lemma dropWhile_eq_self_of_head (p : Char → Bool) (l : List Char)
    (h : ∀ c, l.head? = some c → p c = false) : l.dropWhile p = l := by
  cases l with
  | nil => rfl
  | cons a t =>
    have := h a rfl
    simp [List.dropWhile, this]

lemma dropWhile_getLast_not (p : Char → Bool) :
    ∀ (l : List Char), (l.dropWhile p) ≠ [] →
      (l.dropWhile p).getLast? = l.getLast? := by
  intro l
  induction l with
  | nil => intro h; simp at h
  | cons a t ih =>
    intro h
    by_cases hp : p a
    · rw [List.dropWhile_cons_of_pos hp] at h ⊢
      rw [ih h]
      cases t with
      | nil => simp [List.dropWhile] at h
      | cons b u => simp [List.getLast?_cons_cons]
    · rw [List.dropWhile_cons_of_neg hp]

lemma jsTrim_data (s : String) :
    (jsTrim s).data = (((s.data.dropWhile isWs).reverse).dropWhile isWs).reverse := rfl

lemma jsTrim_head_not (s : String) :
    ∀ c, (jsTrim s).data.head? = some c → isWs c = false := by
  intro c h
  rw [jsTrim_data, List.head?_reverse] at h
  have hne : ((s.data.dropWhile isWs).reverse).dropWhile isWs ≠ [] := by
    intro hnil; rw [hnil] at h; simp at h
  rw [dropWhile_getLast_not isWs _ hne, List.getLast?_reverse] at h
  exact dropWhile_head_not isWs _ c h

lemma jsTrim_last_not (s : String) :
    ∀ c, (jsTrim s).data.getLast? = some c → isWs c = false := by
  intro c h
  rw [jsTrim_data, List.getLast?_reverse] at h
  exact dropWhile_head_not isWs _ c h

lemma jsTrim_idem (s : String) : jsTrim (jsTrim s) = jsTrim s := by
  have h1 : (jsTrim s).data.dropWhile isWs = (jsTrim s).data :=
    dropWhile_eq_self_of_head isWs _ (jsTrim_head_not s)
  have h2 : ((jsTrim s).data.reverse).dropWhile isWs = (jsTrim s).data.reverse := by
    refine dropWhile_eq_self_of_head isWs _ ?_
    intro c hc
    rw [List.head?_reverse] at hc
    exact jsTrim_last_not s c hc
  show String.mk ((((jsTrim s).data.dropWhile isWs).reverse).dropWhile isWs).reverse = jsTrim s
  rw [h1, h2, List.reverse_reverse]

lemma jsJoin_newline_blocks :
    ∀ (l : List String), l ≠ [] →
      jsJoin "\n" (l.map (fun s => s ++ "\n")) = jsJoin "\n\n" l ++ "\n" := by
  intro l
  induction l with
  | nil => intro h; exact absurd rfl h
  | cons a t ih =>
    intro _
    cases t with
    | nil => rfl
    | cons b u =>
      have ht : b :: u ≠ [] := List.cons_ne_nil b u
      show (a ++ "\n") ++ "\n" ++ jsJoin "\n" ((b :: u).map (fun s => s ++ "\n"))
        = a ++ "\n\n" ++ jsJoin "\n\n" (b :: u) ++ "\n"
      rw [ih ht]
      rw [String.append_assoc a "\n" "\n"]
      rw [show ("\n" : String) ++ "\n" = "\n\n" from by decide]
      rw [← String.append_assoc (a ++ "\n\n") (jsJoin "\n\n" (b :: u)) "\n"]

lemma mapWithIdx_map (f : Nat → TranscriptSegment → String) :
    ∀ (l : List TranscriptSegment) (i : Nat),
      mapWithIdx (fun j s => f j s ++ "\n") i l = (mapWithIdx f i l).map (fun s => s ++ "\n") := by
  intro l
  induction l with
  | nil => intro i; rfl
  | cons a t ih => intro i; show _ :: _ = _ :: _; rw [ih]

lemma mapWithIdx_length (f : Nat → TranscriptSegment → String) :
    ∀ (l : List TranscriptSegment) (i : Nat), (mapWithIdx f i l).length = l.length := by
  intro l
  induction l with
  | nil => intro i; rfl
  | cons a t ih => intro i; show _ + 1 = _ + 1; rw [ih]

lemma mapWithIdx_ne_nil (f : Nat → TranscriptSegment → String) (l : List TranscriptSegment)
    (h : l ≠ []) : mapWithIdx f 0 l ≠ [] := by
  cases l with
  | nil => exact absurd rfl h
  | cons a t => exact List.cons_ne_nil _ _

/-- C9: for every non-empty segment list, the SRT rendering is the list of
blocks, one per input segment in input order, each block holding the 1-based
sequence number, the start --> end line with end = offset + duration, and the
trimmed text, consecutive blocks separated by a blank line (and a trailing
newline from the final block). -/
theorem formatAsSrt_spec (transcript : List TranscriptSegment) (h : transcript ≠ []) :
    formatAsSrt transcript
      = jsJoin "\n\n" (mapWithIdx srtBlockSpec 0 transcript) ++ "\n"
    ∧ (mapWithIdx srtBlockSpec 0 transcript).length = transcript.length := by
  constructor
  · show jsJoin "\n" (mapWithIdx (fun index segment => srtBlockSpec index segment ++ "\n") 0 transcript) = _
    rw [mapWithIdx_map srtBlockSpec transcript 0]
    exact jsJoin_newline_blocks _ (by
      intro hnil
      exact (mapWithIdx_ne_nil srtBlockSpec transcript h) hnil)
  · exact mapWithIdx_length srtBlockSpec transcript 0

lemma validateFrom_ok_of_all :
    ∀ (l : List DynSegment) (i : Nat), (∀ s ∈ l, segValid s = true) →
      validateFrom i l = .ok () := by
  intro l
  induction l with
  | nil => intro i _; rfl
  | cons a t ih =>
    intro i h
    have ha : segValid a = true := h a (List.mem_cons_self a t)
    simp only [segValid, Bool.and_eq_true] at ha
    obtain ⟨⟨h1, h2⟩, h3⟩ := ha
    simp only [validateFrom, h1, h2, h3, Bool.not_true, if_false, ite_false,
      Bool.false_eq_true]
    exact ih (i + 1) (fun s hs => h s (List.mem_cons_of_mem a hs))

lemma validateFrom_error_iff :
    ∀ (l : List DynSegment) (i : Nat),
      (∃ e, validateFrom i l = .error e) ↔ ∃ s ∈ l, segValid s = false := by
  intro l
  induction l with
  | nil =>
    intro i
    constructor
    · rintro ⟨e, he⟩; exact absurd he (by simp [validateFrom])
    · rintro ⟨s, hs, _⟩; exact absurd hs (List.not_mem_nil s)
  | cons a t ih =>
    intro i
    by_cases ha : segValid a = true
    · simp only [segValid, Bool.and_eq_true] at ha
      obtain ⟨⟨h1, h2⟩, h3⟩ := ha
      constructor
      · rintro ⟨e, he⟩
        simp only [validateFrom, h1, h2, h3, Bool.not_true, Bool.false_eq_true,
          if_false, ite_false] at he
        obtain ⟨s, hs, hbad⟩ := (ih (i + 1)).mp ⟨e, he⟩
        exact ⟨s, List.mem_cons_of_mem a hs, hbad⟩
      · rintro ⟨s, hs, hbad⟩
        rcases List.mem_cons.mp hs with rfl | hs
        · exact absurd hbad (by simp [segValid, h1, h2, h3])
        · obtain ⟨e, he⟩ := (ih (i + 1)).mpr ⟨s, hs, hbad⟩
          refine ⟨e, ?_⟩
          simp only [validateFrom, h1, h2, h3, Bool.not_true, Bool.false_eq_true,
            if_false, ite_false]
          exact he
    · rw [Bool.not_eq_true] at ha
      constructor
      · intro _
        exact ⟨a, List.mem_cons_self a t, ha⟩
      · intro _
        have ha2 : ¬(textOk a.text = true ∧ numOk a.duration = true ∧ numOk a.offset = true) := by
          rintro ⟨h1, h2, h3⟩
          simp [segValid, h1, h2, h3] at ha
        by_cases h1 : textOk a.text = true
        · by_cases h2 : numOk a.duration = true
          · have h3 : numOk a.offset = false := by
              rcases Bool.eq_false_or_eq_true (numOk a.offset) with h | h
              · exact absurd ⟨h1, h2, h⟩ ha2
              · exact h
            refine ⟨"Invalid offset in segment " ++ toString i, ?_⟩
            simp [validateFrom, h1, h2, h3]
          · rw [Bool.not_eq_true] at h2
            refine ⟨"Invalid duration in segment " ++ toString i, ?_⟩
            simp [validateFrom, h1, h2]
        · rw [Bool.not_eq_true] at h1
          refine ⟨"Invalid text in segment " ++ toString i, ?_⟩
          simp [validateFrom, h1]

lemma dispatch_ok (transcript : List DynSegment) (format : String)
    (hne : transcript.isEmpty = false) (hv : validateFrom 0 transcript = .ok ()) :
    ∃ out, formatTranscript transcript format = .ok out := by
  unfold formatTranscript
  rw [hne, hv]
  simp only [Bool.false_eq_true, if_false]
  split
  · exact ⟨_, rfl⟩
  · split
    · exact ⟨_, rfl⟩
    · split
      · exact ⟨_, rfl⟩
      · split
        · exact ⟨_, rfl⟩
        · split
          · exact ⟨_, rfl⟩
          · exact ⟨_, rfl⟩

/-- C5: formatTranscript throws if and only if the list is empty or some
segment fails a validation check (non-string or falsy text, non-number or
negative duration, non-number or negative offset), and whether it throws and
with which message is identical for every requested format, including
unrecognized ones. -/
theorem formatTranscript_error_iff (transcript : List DynSegment) (format : String) :
    ((∃ e, formatTranscript transcript format = .error e) ↔
      (transcript = [] ∨ ∃ s ∈ transcript, segValid s = false))
    ∧ ∀ (format2 e : String),
        (formatTranscript transcript format = .error e
          ↔ formatTranscript transcript format2 = .error e) := by
  by_cases hemp : transcript = []
  · subst hemp
    constructor
    · constructor
      · intro _; exact Or.inl rfl
      · intro _; exact ⟨"Empty transcript provided", rfl⟩
    · intro format2 e; exact Iff.rfl
  · have hne : transcript.isEmpty = false := by
      cases transcript with
      | nil => exact absurd rfl hemp
      | cons a t => rfl
    cases hval : validateFrom 0 transcript with
    | error e0 =>
      have hall : ∀ f : String, formatTranscript transcript f = .error e0 := by
        intro f
        unfold formatTranscript
        rw [hne, hval]
        rfl
      constructor
      · constructor
        · intro _
          exact Or.inr ((validateFrom_error_iff transcript 0).mp ⟨e0, hval⟩)
        · intro _; exact ⟨e0, hall format⟩
      · intro format2 e
        rw [hall format, hall format2]
    | ok u =>
      cases u
      obtain ⟨out, hout⟩ := dispatch_ok transcript format hne hval
      constructor
      · constructor
        · rintro ⟨e, he⟩
          rw [hout] at he
          exact absurd he (by simp)
        · rintro (h | hbad)
          · exact absurd h hemp
          · obtain ⟨e, he⟩ := (validateFrom_error_iff transcript 0).mpr hbad
            rw [hval] at he
            exact absurd he (by simp)
      · intro format2 e
        obtain ⟨out2, hout2⟩ := dispatch_ok transcript format2 hne hval
        rw [hout, hout2]
        constructor
        · intro h; exact absurd h (by simp)
        · intro h; exact absurd h (by simp)

/-- C8: for every segment list and every format string whose lowercasing is
none of txt, json, csv, srt, vtt, formatTranscript returns exactly the same
result as formatTranscript with format txt. -/
theorem formatTranscript_unknown_format (transcript : List DynSegment) (format : String)
    (h1 : jsToLower format ≠ "txt") (h2 : jsToLower format ≠ "json")
    (h3 : jsToLower format ≠ "csv") (h4 : jsToLower format ≠ "srt")
    (h5 : jsToLower format ≠ "vtt") :
    formatTranscript transcript format = formatTranscript transcript "txt" := by
  unfold formatTranscript
  cases hemp : transcript.isEmpty with
  | true => rfl
  | false =>
    simp only [Bool.false_eq_true, if_false]
    cases hval : validateFrom 0 transcript with
    | error e0 => rfl
    | ok u =>
      cases u
      simp only []
      rw [if_neg h1, if_neg h2, if_neg h3, if_neg h4, if_neg h5,
        show jsToLower "txt" = "txt" from by decide, if_pos rfl]

/-- C10: validation accepts a segment whose text is a nonempty string of
whitespace only; no error is thrown, and the txt rendering contributes the
empty string for that segment. -/
theorem formatTranscript_whitespace_text (pre post : List DynSegment) (w : String) (o d : ℚ)
    (hw : w ≠ "") (hwt : jsTrim w = "")
    (hpre : ∀ s ∈ pre, segValid s = true) (hpost : ∀ s ∈ post, segValid s = true)
    (ho : 0 ≤ o) (hd : 0 ≤ d) :
    formatTranscript
        (pre ++ { text := JsVal.str w, offset := JsVal.num o, duration := JsVal.num d } :: post)
        "txt"
      = .ok (jsJoin "\n\n"
          (pre.map (fun s => jsTrim (strOf s.text))
            ++ "" :: post.map (fun s => jsTrim (strOf s.text)))) := by
  set ws : DynSegment := { text := JsVal.str w, offset := JsVal.num o, duration := JsVal.num d }
    with hws
  have hwsv : segValid ws = true := by
    simp only [segValid, hws, textOk, numOk, Bool.and_eq_true]
    refine ⟨⟨?_, ?_⟩, ?_⟩
    · simp [bne_iff_ne, hw]
    · exact decide_eq_true hd
    · exact decide_eq_true ho
  have hall : ∀ s ∈ pre ++ ws :: post, segValid s = true := by
    intro s hs
    rcases List.mem_append.mp hs with hs | hs
    · exact hpre s hs
    · rcases List.mem_cons.mp hs with rfl | hs
      · exact hwsv
      · exact hpost s hs
  have hne : (pre ++ ws :: post).isEmpty = false := by
    cases pre with
    | nil => rfl
    | cons a t => rfl
  unfold formatTranscript
  rw [hne, validateFrom_ok_of_all _ 0 hall]
  simp only [Bool.false_eq_true, if_false]
  rw [show jsToLower "txt" = "txt" from by decide, if_pos rfl]
  unfold formatAsTxt
  rw [List.map_map, List.map_append, List.map_cons]
  show Except.ok (jsJoin "\n\n"
      (pre.map (fun s => jsTrim (strOf s.text)) ++ jsTrim w :: post.map (fun s => jsTrim (strOf s.text)))) = _
  rw [hwt]

lemma counter_cases (videoId : String) (env : ResolverEnv) (c : Int) :
    (getYouTubeTranscript videoId env c).counter = c ∨
    (getYouTubeTranscript videoId env c).counter = max 0 (c - 1) ∨
    (getYouTubeTranscript videoId env c).counter = c + 1 := by
  unfold getYouTubeTranscript afterA tryUrl1 tryUrl2 fetchTranscriptWithYoutubeI
  repeat' split
  all_goals simp


lemma fetchB_some (env : ResolverEnv) (segs : List TranscriptSegment)
    (h : fetchTranscriptWithYoutubeI env = some segs) :
    ∃ content, env.fetchB = some content ∧ segs = youtubeISegments content := by
  unfold fetchTranscriptWithYoutubeI at h
  split at h
  · exact absurd h (by simp)
  · rename_i content hcontent
    split at h
    · exact absurd h (by simp)
    · simp only [Option.some.injEq] at h
      exact ⟨content, hcontent, h.symm⟩

lemma resolve_ok_master (videoId : String) (env : ResolverEnv) (c : Int)
    (out : ResolveOut) (hout : getYouTubeTranscript videoId env c = out) :
    ∀ segs, out.result = .ok segs →
      out.counter = max 0 (c - 1) ∧
      ((∃ l : List RawSegmentA, segs = l.map normalizeA) ∨
        ∃ content, env.fetchB = some content ∧ segs = youtubeISegments content) := by
  unfold getYouTubeTranscript afterA tryUrl1 tryUrl2 at hout
  repeat' split at hout
  all_goals subst hout
  all_goals intro segs h
  all_goals
    first
      | (simp only [ResolveResult.ok.injEq] at h
         first
           | exact ⟨rfl, Or.inl ⟨_, h.symm⟩⟩
           | (subst h
              rename_i heq hlen
              exact ⟨rfl, Or.inr (fetchB_some env _ heq)⟩))
      | (exfalso; simp at h)

lemma normalizeA_inv (r : RawSegmentA) :
    jsTrim (normalizeA r).text = (normalizeA r).text ∧
    0 ≤ (normalizeA r).offset ∧ 0 ≤ (normalizeA r).duration :=
  ⟨jsTrim_idem _, le_max_left 0 _, le_max_left 0 _⟩

lemma youtubeISegments_inv (content : List BItem)
    (hb : ∀ item ∈ content,
      0 ≤ item.start_ms.getD 0 ∧ item.start_ms.getD 0 ≤ item.end_ms.getD 0) :
    ∀ s ∈ youtubeISegments content,
      jsTrim s.text = s.text ∧ 0 ≤ s.offset ∧ 0 ≤ s.duration := by
  intro s hs
  obtain ⟨item, hitem, hsome⟩ := List.mem_filterMap.mp hs
  obtain ⟨hstart, hse⟩ := hb item hitem
  simp only [segOfBItem] at hsome
  split at hsome
  · split at hsome
    · simp only [Option.some.injEq] at hsome
      subst hsome
      dsimp only
      refine ⟨jsTrim_idem _, ?_, ?_⟩
      · exact_mod_cast Int.fdiv_nonneg hstart (by norm_num)
      · exact_mod_cast Int.fdiv_nonneg (by omega) (by norm_num)
    · exact absurd hsome (by simp)
  · exact absurd hsome (by simp)

/-- C1 (amended): for every successful resolution, every returned segment has
trimmed text, and, provided every strategy B item satisfies
0 <= start_ms <= end_ms, nonnegative offset and duration.  Strategy A
segments are clamped unconditionally; strategy B offsets and durations are
floor-divided from milliseconds without clamping, so the proviso is needed
(see the counterexample). -/
theorem resolver_segments_wellformed (videoId : String) (env : ResolverEnv) (c : Int)
    (hB : ∀ content, env.fetchB = some content → ∀ item ∈ content,
      0 ≤ item.start_ms.getD 0 ∧ item.start_ms.getD 0 ≤ item.end_ms.getD 0)
    (segs : List TranscriptSegment)
    (hres : (getYouTubeTranscript videoId env c).result = .ok segs) :
    ∀ s ∈ segs, jsTrim s.text = s.text ∧ 0 ≤ s.offset ∧ 0 ≤ s.duration := by
  obtain ⟨_, hsrc⟩ := resolve_ok_master videoId env c _ rfl segs hres
  rcases hsrc with ⟨l, rfl⟩ | ⟨content, hcontent, rfl⟩
  · intro s hs
    obtain ⟨r, _, rfl⟩ := List.mem_map.mp hs
    exact normalizeA_inv r
  · exact youtubeISegments_inv content (hB content hcontent)

lemma step_nonneg (videoId : String) (env : ResolverEnv) (c : Int) (h : 0 ≤ c) :
    0 ≤ (getYouTubeTranscript videoId env c).counter := by
  rcases counter_cases videoId env c with h1 | h1 | h1 <;> rw [h1]
  · exact h
  · exact le_max_left 0 _
  · omega

lemma runSeq_nonneg (videoId : String) :
    ∀ (envs : List ResolverEnv) (c : Int), 0 ≤ c → 0 ≤ runSeq videoId envs c := by
  intro envs
  induction envs with
  | nil => intro c h; exact h
  | cons e rest ih =>
    intro c h
    exact ih _ (step_nonneg videoId e c h)

/-- C4: starting from a nonnegative counter, a resolution leaves the counter
nonnegative, every successful resolution sets it to max 0 (c - 1), and no
sequence of resolutions ever drives it below 0. -/
theorem counter_invariant (videoId : String) (env : ResolverEnv) (c : Int) (h : 0 ≤ c) :
    0 ≤ (getYouTubeTranscript videoId env c).counter ∧
    (∀ segs, (getYouTubeTranscript videoId env c).result = .ok segs →
      (getYouTubeTranscript videoId env c).counter = max 0 (c - 1)) ∧
    ∀ envs, 0 ≤ runSeq videoId envs c := by
  refine ⟨step_nonneg videoId env c h, ?_, fun envs => runSeq_nonneg videoId envs c h⟩
  intro segs hres
  exact (resolve_ok_master videoId env c _ rfl segs hres).1

/-- C2: if the first strategy A attempt throws an error whose message
contains Video unavailable, Transcript is disabled, or private, the
resolution fails immediately with the corresponding mapped message (matched
in the order of the if chain), the counter is unchanged, and neither
strategy B nor the URL-form retries are attempted. -/
theorem early_exit_mapping (videoId : String) (env : ResolverEnv) (c : Int) (msg : String)
    (hv : videoId ≠ "") (hA : env.fetchA_id = .err msg)
    (hm : strContains msg "Transcript is disabled" = true ∨
          strContains msg "Video unavailable" = true ∨
          strContains msg "private" = true) :
    (getYouTubeTranscript videoId env c).triedB = false ∧
    (getYouTubeTranscript videoId env c).triedUrl1 = false ∧
    (getYouTubeTranscript videoId env c).triedUrl2 = false ∧
    (getYouTubeTranscript videoId env c).counter = c ∧
    ((getYouTubeTranscript videoId env c).result = .err "Transcripts are disabled for this video" ∨
     (getYouTubeTranscript videoId env c).result = .err "Video is unavailable or has been removed" ∨
     (getYouTubeTranscript videoId env c).result = .err "Video is private or restricted") ∧
    (strContains msg "Transcript is disabled" = true →
      (getYouTubeTranscript videoId env c).result = .err "Transcripts are disabled for this video") ∧
    (strContains msg "Transcript is disabled" = false →
      strContains msg "Video unavailable" = true →
      (getYouTubeTranscript videoId env c).result = .err "Video is unavailable or has been removed") ∧
    (strContains msg "Transcript is disabled" = false →
      strContains msg "Video unavailable" = false →
      strContains msg "private" = true →
      (getYouTubeTranscript videoId env c).result = .err "Video is private or restricted") := by
  unfold getYouTubeTranscript
  rw [if_neg hv, hA]
  cases hd : strContains msg "Transcript is disabled" with
  | true => simp [hd]
  | false =>
    cases hu : strContains msg "Video unavailable" with
    | true => simp [hd, hu]
    | false =>
      cases hp : strContains msg "private" with
      | true => simp [hd, hu, hp]
      | false => simp_all

/-- C3: if strategy A on the bare id yields nothing without matching an
early-exit substring, strategy B yields nothing, and both URL-form retries
fail or return empty, the resolution fails with the fixed diagnostic message
naming the video id and the counter increases by exactly 1. -/
theorem all_attempts_fail (videoId : String) (env : ResolverEnv) (c : Int)
    (hv : videoId ≠ "")
    (hA : env.fetchA_id = .ok [] ∨
      ∃ m, env.fetchA_id = .err m ∧ strContains m "Transcript is disabled" = false ∧
        strContains m "Video unavailable" = false ∧ strContains m "private" = false)
    (hB : ∀ segs, fetchTranscriptWithYoutubeI env = some segs → segs = [])
    (h1 : env.fetchA_url1 = .ok [] ∨ ∃ m, env.fetchA_url1 = .err m)
    (h2 : env.fetchA_url2 = .ok [] ∨ ∃ m, env.fetchA_url2 = .err m) :
    (getYouTubeTranscript videoId env c).result = .err (diagMsg videoId) ∧
    (getYouTubeTranscript videoId env c).counter = c + 1 := by
  have hurl2 : tryUrl2 videoId env c
      = ⟨.err (diagMsg videoId), c + 1, true, true, true⟩ := by
    unfold tryUrl2
    rcases h2 with h2 | ⟨m, h2⟩ <;> rw [h2]
    rfl
  have hurl1 : tryUrl1 videoId env c
      = ⟨.err (diagMsg videoId), c + 1, true, true, true⟩ := by
    unfold tryUrl1
    rcases h1 with h1 | ⟨m, h1⟩ <;> rw [h1]
    · simpa using hurl2
    · exact hurl2
  have hafter : afterA videoId env c
      = ⟨.err (diagMsg videoId), c + 1, true, true, true⟩ := by
    unfold afterA
    cases hf : fetchTranscriptWithYoutubeI env with
    | none => exact hurl1
    | some segs =>
      have hnil := hB segs hf
      subst hnil
      simpa using hurl1
  have hmain : getYouTubeTranscript videoId env c
      = ⟨.err (diagMsg videoId), c + 1, true, true, true⟩ := by
    unfold getYouTubeTranscript
    rw [if_neg hv]
    rcases hA with hA | ⟨m, hA, hd, hu, hp⟩
    · rw [hA]
      simpa using hafter
    · rw [hA]
      simpa [hd, hu, hp] using hafter
  exact ⟨by rw [hmain], by rw [hmain]⟩

/-- C6: smartRateLimit waits exactly max 0 (min 5000 (500 * 1.5 ^ n) - (now - t))
milliseconds, waits a positive amount exactly when the elapsed time since the
last attempt is below the dynamic delay, and then stores the current time
(the clock value after the wait) as the last-attempt timestamp. -/
theorem smartRateLimit_spec (now t : ℚ) (n : Nat) :
    (smartRateLimit now ⟨t, n⟩).1
      = max 0 (min 5000 (500 * (3 / 2 : ℚ) ^ n) - (now - t)) ∧
    ((smartRateLimit now ⟨t, n⟩).1 > 0 ↔ now - t < min 5000 (500 * (3 / 2 : ℚ) ^ n)) ∧
    (smartRateLimit now ⟨t, n⟩).2.lastRequestTime = now + (smartRateLimit now ⟨t, n⟩).1 := by
  have hd : dynamicDelay n = min 5000 (500 * (3 / 2 : ℚ) ^ n) := by
    rw [dynamicDelay, baseDelay, backoffMultiplier, maxDelay, min_comm]
  unfold smartRateLimit
  dsimp only
  rw [hd]
  by_cases hlt : now - t < min 5000 (500 * (3 / 2 : ℚ) ^ n)
  · rw [if_pos hlt]
    refine ⟨(max_eq_right (by linarith)).symm, ?_, rfl⟩
    exact iff_of_true (by linarith) hlt
  · rw [if_neg hlt]
    refine ⟨(max_eq_left (by linarith [not_lt.mp hlt])).symm, ?_, rfl⟩
    exact iff_of_false (lt_irrefl 0) hlt

lemma ratFloor_floor (q : ℚ) : Rat.floor q = ⌊q⌋ := by
  rw [Rat.floor_def', Rat.floor_def]

lemma floorDivNat (a b : ℕ) :
    Rat.floor ((a : ℚ) / (b : ℚ)) = ((a / b : ℕ) : ℤ) := by
  rw [ratFloor_floor]
  rw [show ((a : ℚ)) = (((a : ℤ) : ℚ)) from by push_cast; ring]
  rw [Rat.floor_intCast_div_natCast]
  rw [Int.ofNat_tdiv]
  rfl

lemma jsFmod_natCast (m k : ℕ) (hk : 0 < k) :
    jsFmod ((m : ℚ) / 1000) (k : ℚ) = ((m % (1000 * k) : ℕ) : ℚ) / 1000 := by
  have hge : (0 : ℚ) ≤ ((m : ℚ) / 1000) / (k : ℚ) := by positivity
  have hdiv : ((m : ℚ) / 1000) / (k : ℚ) = (m : ℚ) / (((1000 * k : ℕ) : ℚ)) := by
    push_cast
    rw [div_div]
  rw [jsFmod, jsTrunc, if_neg (not_lt.mpr hge), hdiv,
    floorDivNat m (1000 * k)]
  have hmq : (m : ℚ)
      = ((1000 * k : ℕ) : ℚ) * ((m / (1000 * k) : ℕ) : ℚ) + ((m % (1000 * k) : ℕ) : ℚ) := by
    exact_mod_cast (Nat.div_add_mod m (1000 * k)).symm
  have hcast : (((m / (1000 * k) : ℕ) : ℤ) : ℚ) = ((m / (1000 * k) : ℕ) : ℚ) :=
    Int.cast_natCast _
  rw [hcast]
  have h1000 : (1000 : ℚ) ≠ 0 := by norm_num
  rw [eq_div_iff h1000]
  push_cast at hmq
  linear_combination hmq

lemma formatTime_eval (m : ℕ) (vtt : Bool) :
    formatTime ((m : ℚ) / 1000) vtt =
      padStart (toString ((m / 3600000 : ℕ) : ℤ)) 2 '0' ++ ":"
        ++ padStart (toString ((m % 3600000 / 60000 : ℕ) : ℤ)) 2 '0' ++ ":"
        ++ padStart (toString ((m % 60000 / 1000 : ℕ) : ℤ)) 2 '0'
        ++ (if vtt then "." else ",")
        ++ padStart (toString ((m % 1000 : ℕ) : ℤ)) 3 '0' := by
  have hhours : Rat.floor ((m : ℚ) / 1000 / 3600) = ((m / 3600000 : ℕ) : ℤ) := by
    rw [show ((m : ℚ) / 1000 / 3600) = (m : ℚ) / ((3600000 : ℕ) : ℚ) from by
      rw [div_div]; norm_num]
    exact floorDivNat m 3600000
  have hf3600 : jsFmod ((m : ℚ) / 1000) 3600 = ((m % 3600000 : ℕ) : ℚ) / 1000 := by
    rw [show (3600 : ℚ) = ((3600 : ℕ) : ℚ) from by norm_num]
    rw [jsFmod_natCast m 3600 (by norm_num)]
  have hminutes : Rat.floor (jsFmod ((m : ℚ) / 1000) 3600 / 60)
      = ((m % 3600000 / 60000 : ℕ) : ℤ) := by
    rw [hf3600]
    rw [show (((m % 3600000 : ℕ) : ℚ) / 1000 / 60)
        = ((m % 3600000 : ℕ) : ℚ) / ((60000 : ℕ) : ℚ) from by
      rw [div_div]; norm_num]
    exact floorDivNat _ 60000
  have hf60 : jsFmod ((m : ℚ) / 1000) 60 = ((m % 60000 : ℕ) : ℚ) / 1000 := by
    rw [show (60 : ℚ) = ((60 : ℕ) : ℚ) from by norm_num]
    rw [jsFmod_natCast m 60 (by norm_num)]
  have hsecs : Rat.floor (jsFmod ((m : ℚ) / 1000) 60) = ((m % 60000 / 1000 : ℕ) : ℤ) := by
    rw [hf60]
    rw [show (((m % 60000 : ℕ) : ℚ) / 1000)
        = ((m % 60000 : ℕ) : ℚ) / ((1000 : ℕ) : ℚ) from by norm_num]
    exact floorDivNat _ 1000
  have hf1 : jsFmod ((m : ℚ) / 1000) 1 = ((m % 1000 : ℕ) : ℚ) / 1000 := by
    rw [show (1 : ℚ) = ((1 : ℕ) : ℚ) from by norm_num]
    rw [jsFmod_natCast m 1 (by norm_num)]
  have hms : Rat.floor (jsFmod ((m : ℚ) / 1000) 1 * 1000) = ((m % 1000 : ℕ) : ℤ) := by
    rw [hf1, div_mul_cancel₀ _ (by norm_num : (1000 : ℚ) ≠ 0), ratFloor_floor,
      Int.floor_natCast]
  unfold formatTime
  dsimp only
  rw [hhours, hminutes, hsecs, hms]

/-- C7: the values the time formatter produces under exact rational
arithmetic: 3661.234 seconds formats as 01:01:01,234 in SRT/CSV style and
01:01:01.234 in VTT style, 0 seconds as 00:00:00,000, and hours are never
wrapped at 24 (25 hours prints as 25, 123 hours as 123).  Note: on IEEE-754
doubles the program computes 233 rather than 234 milliseconds for the first
input, because the double nearest 3661.234 is slightly below it. -/
theorem formatTime_values :
    formatTime ((3661234 : ℚ) / 1000) false = "01:01:01,234" ∧
    formatTime ((3661234 : ℚ) / 1000) true = "01:01:01.234" ∧
    formatTime 0 false = "00:00:00,000" ∧
    formatTime 90000 false = "25:00:00,000" ∧
    formatTime 443999 false = "123:19:59,000" := by
  refine ⟨?_, ?_, ?_, ?_, ?_⟩
  · rw [show ((3661234 : ℚ)) = ((3661234 : ℕ) : ℚ) from by norm_num,
      formatTime_eval 3661234 false]
    decide
  · rw [show ((3661234 : ℚ)) = ((3661234 : ℕ) : ℚ) from by norm_num,
      formatTime_eval 3661234 true]
    decide
  · rw [show ((0 : ℚ)) = ((0 : ℕ) : ℚ) / 1000 from by norm_num,
      formatTime_eval 0 false]
    decide
  · rw [show ((90000 : ℚ)) = ((90000000 : ℕ) : ℚ) / 1000 from by norm_num,
      formatTime_eval 90000000 false]
    decide
  · rw [show ((443999 : ℚ)) = ((443999000 : ℕ) : ℚ) / 1000 from by norm_num,
      formatTime_eval 443999000 false]
    decide

/-- Counterexample to C1 as stated: with strategy B returning an item whose
end_ms (0) is below its start_ms (1000), the resolution succeeds and returns
a segment with duration -1, which is negative: no clamping happens on the
strategy B path. -/
theorem resolver_negative_duration_cex :
    (getYouTubeTranscript "abc" strategyBCexEnv 0).result
      = .ok [{ text := "hi", offset := 1, duration := -1 }] ∧
    ({ text := "hi", offset := 1, duration := -1 } : TranscriptSegment).duration < 0 := by
  decide

/-- Witness for the amended C1 theorem at a concrete environment. -/
theorem resolver_segments_wellformed_witness :
    jsTrim ({ text := "hi", offset := 1, duration := 2 } : TranscriptSegment).text
        = ({ text := "hi", offset := 1, duration := 2 } : TranscriptSegment).text
      ∧ 0 ≤ ({ text := "hi", offset := 1, duration := 2 } : TranscriptSegment).offset
      ∧ 0 ≤ ({ text := "hi", offset := 1, duration := 2 } : TranscriptSegment).duration :=
  resolver_segments_wellformed "abc" witAEnv 0
    (fun _ h => nomatch h)
    [{ text := "hi", offset := 1, duration := 2 }] (by decide)
    { text := "hi", offset := 1, duration := 2 } (by decide)

/-- Witness for the C2 theorem at a concrete environment. -/
theorem early_exit_mapping_witness :
    (getYouTubeTranscript "abc" witUnavailEnv 7).triedB = false ∧
    (getYouTubeTranscript "abc" witUnavailEnv 7).triedUrl1 = false ∧
    (getYouTubeTranscript "abc" witUnavailEnv 7).triedUrl2 = false ∧
    (getYouTubeTranscript "abc" witUnavailEnv 7).counter = 7 ∧
    ((getYouTubeTranscript "abc" witUnavailEnv 7).result = .err "Transcripts are disabled for this video" ∨
     (getYouTubeTranscript "abc" witUnavailEnv 7).result = .err "Video is unavailable or has been removed" ∨
     (getYouTubeTranscript "abc" witUnavailEnv 7).result = .err "Video is private or restricted") ∧
    (strContains "Video unavailable" "Transcript is disabled" = true →
      (getYouTubeTranscript "abc" witUnavailEnv 7).result = .err "Transcripts are disabled for this video") ∧
    (strContains "Video unavailable" "Transcript is disabled" = false →
      strContains "Video unavailable" "Video unavailable" = true →
      (getYouTubeTranscript "abc" witUnavailEnv 7).result = .err "Video is unavailable or has been removed") ∧
    (strContains "Video unavailable" "Transcript is disabled" = false →
      strContains "Video unavailable" "Video unavailable" = false →
      strContains "Video unavailable" "private" = true →
      (getYouTubeTranscript "abc" witUnavailEnv 7).result = .err "Video is private or restricted") :=
  early_exit_mapping "abc" witUnavailEnv 7 "Video unavailable" (by decide) rfl
    (Or.inr (Or.inl (by decide)))

/-- Witness for the C3 theorem at a concrete environment. -/
theorem all_attempts_fail_witness :
    (getYouTubeTranscript "abc" witFailEnv 5).result = .err (diagMsg "abc") ∧
    (getYouTubeTranscript "abc" witFailEnv 5).counter = 5 + 1 :=
  all_attempts_fail "abc" witFailEnv 5 (by decide)
    (Or.inr ⟨"request timed out", rfl, by decide, by decide, by decide⟩)
    (fun _ h => nomatch h)
    (Or.inr ⟨"request timed out", rfl⟩)
    (Or.inl rfl)

/-- Witness for the C4 theorem at a concrete environment. -/
theorem counter_invariant_witness :
    0 ≤ (getYouTubeTranscript "abc" witFailEnv 0).counter ∧
    (∀ segs, (getYouTubeTranscript "abc" witFailEnv 0).result = .ok segs →
      (getYouTubeTranscript "abc" witFailEnv 0).counter = max 0 (0 - 1)) ∧
    ∀ envs, 0 ≤ runSeq "abc" envs 0 :=
  counter_invariant "abc" witFailEnv 0 (by decide)

/-- Witness for the C8 theorem at a concrete list and the format XML. -/
theorem formatTranscript_unknown_format_witness :
    formatTranscript [{ text := .str "hi", offset := .num 1, duration := .num 2 }] "XML"
      = formatTranscript [{ text := .str "hi", offset := .num 1, duration := .num 2 }] "txt" :=
  formatTranscript_unknown_format _ "XML" (by decide) (by decide) (by decide) (by decide)
    (by decide)

/-- Witness for the C9 theorem at a concrete one-segment list. -/
theorem formatAsSrt_spec_witness :
    formatAsSrt [{ text := "hi", offset := 1, duration := 2 }]
      = jsJoin "\n\n" (mapWithIdx srtBlockSpec 0 [{ text := "hi", offset := 1, duration := 2 }]) ++ "\n"
    ∧ (mapWithIdx srtBlockSpec 0
        [({ text := "hi", offset := 1, duration := 2 } : TranscriptSegment)]).length
      = [({ text := "hi", offset := 1, duration := 2 } : TranscriptSegment)].length :=
  formatAsSrt_spec [{ text := "hi", offset := 1, duration := 2 }] (by decide)

/-- Witness for the C10 theorem at a one-segment list whose text is a single
space. -/
theorem formatTranscript_whitespace_text_witness :
    formatTranscript
        ([] ++ { text := JsVal.str " ", offset := JsVal.num 0, duration := JsVal.num 0 } :: [])
        "txt"
      = .ok (jsJoin "\n\n"
          (List.map (fun s => jsTrim (strOf s.text)) ([] : List DynSegment)
            ++ "" :: List.map (fun s => jsTrim (strOf s.text)) ([] : List DynSegment))) :=
  formatTranscript_whitespace_text [] [] " " 0 0 (by decide) (by decide)
    (fun s hs => absurd hs (List.not_mem_nil s))
    (fun s hs => absurd hs (List.not_mem_nil s))
    (le_refl 0) (le_refl 0)
